import Mathlib

/-!
# micrORM — verification of the spec against the code

Shallow embedding of the micrORM core (`src/microrm/models.py` and
`src/microrm/__init__.py`): the record gateway (`save`, `filter`, `get`,
`all`), the lazy registration state machine, and the SQLite driver wrappers.

Modelling conventions:
* SQLite data values are modelled by `MicrORM.Value` (null / integer / text);
  enum attributes are modelled post-normalisation (`_as_db_dict` replaces an
  `Enum` by its `.value`, so every stored value is already primitive).
* A record instance is a total valuation of attribute names; a Python
  attribute that is absent (`getattr(self, pk, None)`) is modelled as `null`.
* Python dict indexing `data[c]` is modelled with a `null` default; the code
  only indexes with keys of the dict except when the caller passes unknown
  `update_fields` names, a path on which Python raises `KeyError` and which
  the update theorems exclude by hypothesis.
* The database driver is modelled semantically: a table is a list of rows in
  `select_columns` order, `WHERE a=?` uses SQLite equality (`NULL` never
  compares equal), and `LIMIT n` truncates.
-/

namespace MicrORM

/-- SQLite storage value as seen by the gateway (post enum-normalisation). -/
inductive Value where
  | null
  | int (i : Int)
  | text (s : String)
deriving DecidableEq, Repr

/-- A record instance: a total valuation of attribute names.
`getattr(self, name, None)` for an unset attribute is `Value.null`. -/
abbrev RecordInstance := String → Value

/-- Declaration-time metadata of a record type: class name, `__table__`,
dataclass field names in declaration order, `Meta.pk` (normalised by
`_meta_pk`) and `Meta.unique` (normalised by `_meta_unique`). -/
structure ModelType where
  clsName : String
  table : String
  fields : List String
  pk : Option String
  unique : List String
deriving DecidableEq, Repr

/-- `BaseModel._as_db_dict`: field name/value pairs in declaration order,
with the primary key appended when it is truthy and not a declared field. -/
def as_db_dict (m : ModelType) (inst : RecordInstance) : List (String × Value) :=
  let base := m.fields.map fun f => (f, inst f)
  match m.pk with
  | some p => if p ≠ "" ∧ p ∉ m.fields then base ++ [(p, inst p)] else base
  | none => base

/-- The key list of `_as_db_dict`, which depends only on the type metadata,
never on the instance's values. -/
def dbKeys (m : ModelType) : List String :=
  match m.pk with
  | some p => if p ≠ "" ∧ p ∉ m.fields then m.fields ++ [p] else m.fields
  | none => m.fields

/-- `data[c]` with a `null` default (see the module conventions). -/
def dataGet (d : List (String × Value)) (c : String) : Value :=
  (d.lookup c).getD Value.null

/-- `data.get(k) is not None`: the key is present and its value is non-null. -/
def getNotNone (d : List (String × Value)) (k : String) : Bool :=
  match d.lookup k with
  | some v => decide (v ≠ Value.null)
  | none => false

/-- What `execute_query` reports back to `save`: success flag, `rowcount`
and `lastrowid` of the cursor. -/
structure ExecResult where
  ok : Bool
  rowcount : Int
  lastrowid : Option Int
deriving DecidableEq, Repr

/-- Result of `save`: the SQL text sent to the driver, the positionally
bound parameters, and the (possibly mutated) instance returned. -/
structure SaveOut where
  sql : String
  params : List Value
  inst : RecordInstance

/-- `setattr(inst, name, v)`. -/
def setAttr (inst : RecordInstance) (name : String) (v : Value) : RecordInstance :=
  fun f => if f = name then v else inst f

/-- `cursor.lastrowid` as a stored value (`None` becomes SQL null). -/
def lastIdValue : Option Int → Value
  | some n => Value.int n
  | none => Value.null

/-- Python `update_fields or fallback`: `None` and the empty list are falsy. -/
def pyOr (update_fields : Option (List String)) (fallback : List String) : List String :=
  match update_fields with
  | some fs => if fs = [] then fallback else fs
  | none => fallback

/-- Columns updated by the update-by-key branch:
`update_fields or [c for c in data if c != primary_key]`. -/
def updateColumns (data : List (String × Value)) (update_fields : Option (List String))
    (p : String) : List String :=
  pyOr update_fields ((data.map Prod.fst).filter fun c => decide (c ≠ p))

/-- Columns of the plain-insert branch: `[c for c in data if c != primary_key]`
(comparing a string against a possibly-`None` primary key). -/
def plainColumns (data : List (String × Value)) (pk : Option String) : List String :=
  (data.map Prod.fst).filter fun c => decide (some c ≠ pk)

/-- Update-by-key branch of `BaseModel.save` (the primary key is truthy and
its current value is non-null): `UPDATE <table> SET <cols>=? WHERE <pk>=?`. -/
def saveUpdate (m : ModelType) (data : List (String × Value)) (inst : RecordInstance)
    (update_fields : Option (List String)) (p : String) : SaveOut :=
  let cols := updateColumns data update_fields p
  let set_sql := String.intercalate ", " (cols.map fun c => c ++ "=?")
  { sql := "UPDATE " ++ m.table ++ " SET " ++ set_sql ++ " WHERE " ++ p ++ "=?"
    params := cols.map (dataGet data) ++ [dataGet data p]
    inst := inst }

/-- Upsert-by-uniqueness branch of `BaseModel.save` (`unique_columns` is
non-empty): `INSERT ... ON CONFLICT(<unique cols>) DO NOTHING`, reproducing
the triple-quoted f-string verbatim, whitespace included. -/
def saveConflict (m : ModelType) (data : List (String × Value)) (inst : RecordInstance) : SaveOut :=
  let cols := data.map Prod.fst
  { sql := "\n            INSERT INTO " ++ m.table ++ " (" ++ String.intercalate ", " cols
      ++ ")\n            VALUES (" ++ String.intercalate ", " (cols.map fun _ => "?")
      ++ ")\n            ON CONFLICT(" ++ String.intercalate ", " m.unique
      ++ ") DO NOTHING\n            "
    params := cols.map (dataGet data)
    inst := inst }

/-- Plain-insert branch of `BaseModel.save`: the column list drops the
primary key (`c != primary_key`, hence no column is dropped when `Meta.pk`
is `None`), and on driver success with a truthy primary key the instance's
key attribute is set to `cursor.lastrowid`. -/
def savePlain (m : ModelType) (data : List (String × Value)) (inst : RecordInstance)
    (driver : ExecResult) : SaveOut :=
  let cols := plainColumns data m.pk
  let inst2 :=
    match m.pk with
    | some p =>
      if driver.ok = true ∧ p ≠ "" then setAttr inst p (lastIdValue driver.lastrowid) else inst
    | none => inst
  { sql := "INSERT INTO " ++ m.table ++ " (" ++ String.intercalate ", " cols
      ++ ") VALUES (" ++ String.intercalate ", " (cols.map fun _ => "?") ++ ")"
    params := cols.map (dataGet data)
    inst := inst2 }

/-- `BaseModel.save(update_fields)`: dispatch between the three SQL shapes in
the order the code tests them.  `driver` is what `execute_query` reports for
the emitted statement (it is only consulted by the plain-insert branch). -/
def save (m : ModelType) (inst : RecordInstance) (update_fields : Option (List String))
    (driver : ExecResult) : SaveOut :=
  let data := as_db_dict m inst
  match m.pk with
  | some p =>
    if p ≠ "" ∧ getNotNone data p = true then saveUpdate m data inst update_fields p
    else if m.unique ≠ [] then saveConflict m data inst
    else savePlain m data inst driver
  | none =>
    if m.unique ≠ [] then saveConflict m data inst
    else savePlain m data inst driver

/-- Membership test of `_query`'s `valid_filter_fields`: declared fields plus
the primary key when the latter is truthy. -/
def isValidFilterField (m : ModelType) (name : String) : Bool :=
  m.fields.contains name ||
    match m.pk with
    | some p => decide (p ≠ "") && (name == p)
    | none => false

/-- `select_columns` of `_query`: declared fields, with a truthy surrogate
primary key prepended when it is not a declared field. -/
def select_columns (m : ModelType) : List String :=
  match m.pk with
  | some p => if p ≠ "" ∧ p ∉ m.fields then p :: m.fields else m.fields
  | none => m.fields

/-- `where_sql` of `_query`. -/
def whereSQL (filters : List (String × Value)) : String :=
  if filters = [] then ""
  else " WHERE " ++ String.intercalate " AND " (filters.map fun nv => nv.1 ++ "=?")

/-- `limit_sql` of `_query`. -/
def limitSQL : Option Nat → String
  | some n => " LIMIT " ++ toString n
  | none => ""

/-- The SELECT statement text built by `_query`. -/
def selectSQL (m : ModelType) (filters : List (String × Value)) (limit : Option Nat) : String :=
  "SELECT " ++ String.intercalate ", " (select_columns m) ++ " FROM " ++ m.table
    ++ whereSQL filters ++ limitSQL limit

/-- A fetched row, in `select_columns` order. -/
abbrev Row := List Value

/-- SQLite `=` on bound values: `NULL` compares equal to nothing. -/
def sqlEq (a b : Value) : Bool :=
  match a, b with
  | Value.null, _ => false
  | _, Value.null => false
  | a, b => a == b

/-- Value of column `name` in a row laid out in `selectCols` order. -/
def colValue (selectCols : List String) (row : Row) (name : String) : Value :=
  ((selectCols.zip row).lookup name).getD Value.null

/-- A row satisfies the AND-combined exact-match criteria of the WHERE clause. -/
def rowMatches (selectCols : List String) (filters : List (String × Value)) (row : Row) : Bool :=
  filters.all fun nv => sqlEq (colValue selectCols row nv.1) nv.2

/-- Semantics of the emitted SELECT against a stored table: filter by the
WHERE criteria, then truncate to `LIMIT` when present. -/
def runSelect (table : List Row) (selectCols : List String)
    (filters : List (String × Value)) (limit : Option Nat) : List Row :=
  let matched := table.filter (rowMatches selectCols filters)
  match limit with
  | some n => matched.take n
  | none => matched

/-- `BaseModel._build_model_instance_from_row`: zip the row against the
select columns, build the instance from the declared-field subset, then set
a truthy surrogate primary key after construction. -/
def build_model_instance_from_row (m : ModelType) (selectCols : List String)
    (row : Row) : RecordInstance :=
  let row_data := selectCols.zip row
  let base : RecordInstance := fun f =>
    if f ∈ m.fields then (row_data.lookup f).getD Value.null else Value.null
  match m.pk with
  | some p =>
    if p ≠ "" ∧ p ∉ m.fields then setAttr base p ((row_data.lookup p).getD Value.null)
    else base
  | none => base

/-- Result of `_query`: the SQL text, its bound parameters, and the hydrated
instances. -/
structure QueryOut where
  sql : String
  params : List Value
  results : List RecordInstance

/-- `BaseModel._query(filters, limit)` run against a stored `table`: reject
unknown filter fields before any SQL, otherwise build the SELECT and hydrate
the fetched rows. -/
def queryRun (m : ModelType) (table : List Row) (filters : List (String × Value))
    (limit : Option Nat) : Except String QueryOut :=
  let unknown := (filters.map Prod.fst).filter fun n => ! isValidFilterField m n
  if unknown ≠ [] then
    Except.error ("Unknown filter field(s): " ++ String.intercalate ", " unknown)
  else
    let cols := select_columns m
    let rows := runSelect table cols filters limit
    Except.ok { sql := selectSQL m filters limit
                params := filters.map Prod.snd
                results := rows.map (build_model_instance_from_row m cols) }

/-- `BaseModel.filter(**filters)`. -/
def filterRun (m : ModelType) (table : List Row) (filters : List (String × Value)) :
    Except String QueryOut :=
  queryRun m table filters none

/-- `BaseModel.all()`. -/
def allRun (m : ModelType) (table : List Row) : Except String QueryOut :=
  queryRun m table [] none

/-- The exceptions `get` can raise. -/
inductive GetErr where
  | valueErr (msg : String)
  | doesNotExist (msg : String)
  | multipleObjectsReturned (msg : String)
deriving DecidableEq, Repr

/-- `BaseModel.get(raise_if_not_found, **filters)`: requires at least one
criterion, queries with `limit=2`, and dispatches on the number of matches. -/
def get (m : ModelType) (table : List Row) (raise_if_not_found : Bool)
    (filters : List (String × Value)) : Except GetErr (Option RecordInstance) :=
  if filters = [] then
    Except.error (GetErr.valueErr "get() requires at least one keyword filter.")
  else
    match queryRun m table filters (some 2) with
    | Except.error e => Except.error (GetErr.valueErr e)
    | Except.ok out =>
      match out.results with
      | [] =>
        if raise_if_not_found then
          Except.error (GetErr.doesNotExist (m.clsName ++ " matching query does not exist."))
        else Except.ok none
      | [x] => Except.ok (some x)
      | _ =>
        Except.error (GetErr.multipleObjectsReturned
          ("get() returned more than one " ++ m.clsName ++ "."))

/-- Class-level mutable registration state of a record type: the bound
database handle (`cls._db`, handles identified by a natural number) and the
`__microrm_registered__` flag. -/
structure RegState where
  db : Option Nat
  registered : Bool
deriving DecidableEq, Repr

/-- `BaseModel._meta_database`: rebinding to a different non-`None`
`Meta.database` updates `cls._db` and resets the registered flag; returns
the (possibly updated) bound handle together with the new state. -/
def meta_database (metaDb : Option Nat) (s : RegState) : Option Nat × RegState :=
  match metaDb with
  | some d =>
    if s.db ≠ some d then (some d, { db := some d, registered := false }) else (s.db, s)
  | none => (s.db, s)

/-- `BaseModel._ensure_registered`: raise when no database is configured,
otherwise call the registrar (`db._register_model`) exactly when the flag is
unset and record that it ran.  The returned boolean tells whether the
registrar was invoked on this call. -/
def ensure_registered (metaDb : Option Nat) (s : RegState) : Except String (RegState × Bool) :=
  let ds := meta_database metaDb s
  match ds.1 with
  | none =>
    Except.error "No database configured for this model. Set `class Meta: database = db`."
  | some _ =>
    if ds.2.registered then Except.ok (ds.2, false)
    else Except.ok ({ ds.2 with registered := true }, true)

/-- Cursor state observed by `SQLiteDatabase.execute_query` after running a
statement (`rowcount`, `lastrowid`). -/
structure Cursor where
  rowcount : Int
  lastrowid : Option Int
deriving DecidableEq, Repr

/-- Outcome of `cursor.execute(...)` followed by `connection.commit()`:
either the resulting cursor state, or a raised `sqlite3.Error` together with
the cursor state at the moment of the failure. -/
inductive ExecOutcome where
  | success (c : Cursor)
  | failure (err : String) (c : Cursor)
deriving DecidableEq, Repr

/-- Outcome of `cursor.execute` + `cursor.fetchall()`. -/
inductive FetchOutcome where
  | success (rows : List Row)
  | failure (err : String)
deriving DecidableEq, Repr

/-- Outcome of `cursor.execute` + `cursor.fetchone()`. -/
inductive FetchOneOutcome where
  | success (row : Option Row)
  | failure (err : String)
deriving DecidableEq, Repr

/-- Python `params if params else None`: an empty parameter tuple is falsy
and the statement is executed without parameters. -/
def effParams : Option (List Value) → Option (List Value)
  | some l => if l = [] then none else some l
  | none => none

/-- `SQLiteDatabase.execute_query`: the `try`/`except sqlite3.Error` block
returns `(True, rowcount, lastrowid)` on success and degrades to
`(False, rowcount, lastrowid)` on a driver error instead of raising. -/
def execute_query (driver : String → Option (List Value) → ExecOutcome)
    (query : String) (params : Option (List Value)) : Bool × Int × Option Int :=
  match driver query (effParams params) with
  | ExecOutcome.success c => (true, c.rowcount, c.lastrowid)
  | ExecOutcome.failure _ c => (false, c.rowcount, c.lastrowid)

/-- `SQLiteDatabase.fetch_all`: degrades to the empty list on a driver error. -/
def fetch_all (driver : String → Option (List Value) → FetchOutcome)
    (query : String) (params : Option (List Value)) : List Row :=
  match driver query (effParams params) with
  | FetchOutcome.success rows => rows
  | FetchOutcome.failure _ => []

/-- `SQLiteDatabase.fetch_one`: degrades to `None` on a driver error. -/
def fetch_one (driver : String → Option (List Value) → FetchOneOutcome)
    (query : String) (params : Option (List Value)) : Option Row :=
  match driver query (effParams params) with
  | FetchOneOutcome.success row => row
  | FetchOneOutcome.failure _ => none

/-- Primitive source types of a declared field, as classified by the schema
registrar's type-mapping table. -/
inductive PrimKind where
  | intKind
  | boolKind
  | floatKind
  | bytesKind
  | textKind
  | otherKind
deriving DecidableEq, Repr

/-- A declared field: name, primitive kind, and whether it is wrapped in an
optional/nullable wrapper (the wrapper is stripped before type mapping). -/
structure FieldDecl where
  name : String
  kind : PrimKind
  nullable : Bool
deriving DecidableEq, Repr

/-- Modelled from the spec: the storage-type mapping of the schema registrar
(`db._register_model`, whose implementation is not part of the source tree —
only its call site in `BaseModel._ensure_registered` is), spec §4.1 step 2. -/
def storageType : PrimKind → String
  | PrimKind.intKind => "INTEGER"
  | PrimKind.boolKind => "INTEGER"
  | PrimKind.floatKind => "REAL"
  | PrimKind.bytesKind => "BLOB"
  | PrimKind.textKind => "TEXT"
  | PrimKind.otherKind => "TEXT"

/-- Modelled from the spec: the column definition of one declared field,
spec §4.1 steps 2–3 — strip the nullable wrapper, map the primitive type,
and qualify the primary-key column (autoincrement form when INTEGER). -/
def columnDef (pk : Option String) (f : FieldDecl) : String :=
  let st := storageType f.kind
  if some f.name = pk then
    if st = "INTEGER" then f.name ++ " " ++ st ++ " PRIMARY KEY AUTOINCREMENT"
    else f.name ++ " " ++ st ++ " PRIMARY KEY"
  else f.name ++ " " ++ st

/-- Modelled from the spec: the full CREATE TABLE column list of the schema
registrar, spec §4.1 — a surrogate `id INTEGER PRIMARY KEY AUTOINCREMENT`
prepended when `primary_key == "id"` is not a declared field, declared
fields in declaration order, then a table-level UNIQUE clause. -/
def columnDefs (fields : List FieldDecl) (pk : Option String) (unique : List String) :
    List String :=
  let base := fields.map (columnDef pk)
  let withId :=
    if pk = some "id" ∧ "id" ∉ fields.map FieldDecl.name then
      "id INTEGER PRIMARY KEY AUTOINCREMENT" :: base
    else base
  if unique ≠ [] then
    withId ++ ["UNIQUE (" ++ String.intercalate ", " unique ++ ")"]
  else withId

/-- Concrete fixture: the `User` model of the repository's examples
(`@dataclass class User(BaseModel): name: str; email: Optional[str] = None`
with the default primary key `id` and no unique constraint). -/
def userModel : ModelType :=
  { clsName := "User", table := "user", fields := ["name", "email"],
    pk := some "id", unique := [] }

/-- Concrete fixture: `userModel` with a unique constraint on `name`. -/
def userModelUnique : ModelType :=
  { userModel with unique := ["name"] }

/-- Concrete fixture: a freshly constructed `User(name="Alice")` whose
primary key is unset. -/
def aliceNew : RecordInstance := fun f =>
  if f = "name" then Value.text "Alice"
  else if f = "email" then Value.text "alice@example.com"
  else Value.null

/-- Concrete fixture: the same record with its primary key set to 1. -/
def aliceSaved : RecordInstance := fun f =>
  if f = "id" then Value.int 1 else aliceNew f

/-- Concrete fixture: a second saved record with different field values
(primary key 2, name Bob, no email). -/
def bobSaved : RecordInstance := fun f =>
  if f = "id" then Value.int 2
  else if f = "name" then Value.text "Bob"
  else Value.null

/-- Concrete fixture: a successful driver result reporting last-inserted
id 5. -/
def okExec : ExecResult := { ok := true, rowcount := 1, lastrowid := some 5 }

/-- Concrete fixture: a failed driver result. -/
def failExec : ExecResult := { ok := false, rowcount := -1, lastrowid := none }

/-- Concrete fixture: a two-row `user` table in `select_columns` order
(`id, name, email`) in which both rows have name Alice. -/
def twoAliceTable : List Row :=
  [[Value.int 1, Value.text "Alice", Value.null],
   [Value.int 2, Value.text "Alice", Value.null]]

/-! ## Supporting lemmas -/

theorem lookup_map_self (inst : RecordInstance) (l : List String) (c : String) (h : c ∈ l) :
    List.lookup c (l.map fun f => (f, inst f)) = some (inst c) := by
  induction l with
  | nil => cases h
  | cons a t ih =>
    rcases List.mem_cons.mp h with rfl | ht
    · simp [List.lookup]
    · by_cases hc : c = a
      · subst hc; simp [List.lookup]
      · have hb : (c == a) = false := by simp [hc]
        simpa [List.lookup, hb] using ih ht

theorem lookup_map_self_none (inst : RecordInstance) (l : List String) (c : String)
    (h : c ∉ l) : List.lookup c (l.map fun f => (f, inst f)) = none := by
  induction l with
  | nil => rfl
  | cons a t ih =>
    have hc : c ≠ a := fun e => h (e ▸ List.mem_cons_self a t)
    have hb : (c == a) = false := by simp [hc]
    have ht : c ∉ t := fun e => h (List.mem_cons_of_mem a e)
    simpa [List.lookup, hb] using ih ht

theorem lookup_append_of_none (l1 l2 : List (String × Value)) (c : String)
    (h : List.lookup c l1 = none) : List.lookup c (l1 ++ l2) = List.lookup c l2 := by
  induction l1 with
  | nil => rfl
  | cons a t ih =>
    cases hb : (c == a.1) with
    | true =>
      exfalso
      cases a with
      | mk k v => simp [List.lookup, hb] at h
    | false =>
      cases a with
      | mk k v =>
        simp only [List.lookup, hb] at h
        simpa [List.cons_append, List.lookup, hb] using ih h

theorem map_fst_map_pair (inst : RecordInstance) (l : List String) :
    (l.map fun f => (f, inst f)).map Prod.fst = l := by
  induction l with
  | nil => rfl
  | cons a t ih => simpa using ih

theorem lookup_isSome_of_mem_keys (d : List (String × Value)) (c : String)
    (h : c ∈ d.map Prod.fst) : (List.lookup c d).isSome = true := by
  induction d with
  | nil => cases h
  | cons a t ih =>
    cases a with
    | mk k v =>
      by_cases hc : c = k
      · subst hc
        simp [List.lookup]
      · have hb : (c == k) = false := by simp [hc]
        simp only [List.map_cons, List.mem_cons] at h
        rcases h with h | h
        · exact absurd h hc
        · simpa [List.lookup, hb] using ih h

theorem as_db_dict_keys (m : ModelType) (inst : RecordInstance) :
    (as_db_dict m inst).map Prod.fst = dbKeys m := by
  unfold as_db_dict dbKeys
  cases m.pk with
  | none => exact map_fst_map_pair inst m.fields
  | some p =>
    by_cases hc : p ≠ "" ∧ p ∉ m.fields
    · simp only [if_pos hc, List.map_append, map_fst_map_pair]
      rfl
    · simp only [if_neg hc, map_fst_map_pair]

theorem as_db_dict_lookup_pk (m : ModelType) (inst : RecordInstance) (p : String)
    (hpk : m.pk = some p) (hp : p ≠ "") :
    List.lookup p (as_db_dict m inst) = some (inst p) := by
  unfold as_db_dict
  rw [hpk]
  by_cases hmem : p ∈ m.fields
  · have hcond : ¬ (p ≠ "" ∧ p ∉ m.fields) := fun h => h.2 hmem
    simp only [if_neg hcond]
    exact lookup_map_self inst m.fields p hmem
  · simp only [if_pos (show p ≠ "" ∧ p ∉ m.fields from ⟨hp, hmem⟩)]
    rw [lookup_append_of_none _ _ _ (lookup_map_self_none inst m.fields p hmem)]
    simp [List.lookup]

theorem dataGet_pk (m : ModelType) (inst : RecordInstance) (p : String)
    (hpk : m.pk = some p) (hp : p ≠ "") :
    dataGet (as_db_dict m inst) p = inst p := by
  unfold dataGet
  rw [as_db_dict_lookup_pk m inst p hpk hp]
  rfl

theorem getNotNone_pk (m : ModelType) (inst : RecordInstance) (p : String)
    (hpk : m.pk = some p) (hp : p ≠ "") :
    getNotNone (as_db_dict m inst) p = decide (inst p ≠ Value.null) := by
  unfold getNotNone
  rw [as_db_dict_lookup_pk m inst p hpk hp]

/-! ## Claims -/

/-- C5: for a record type with declared fields `[name: text, email: optional
text]` and the default primary key `id` absent from the declared fields, the
generated CREATE TABLE column list is, in order,
`id INTEGER PRIMARY KEY AUTOINCREMENT, name TEXT, email TEXT`: the surrogate
id column is prepended, then the declared fields follow in declaration order
with the nullable wrapper stripped before type mapping. -/
theorem c5_schema_column_order :
    columnDefs
        [{ name := "name", kind := PrimKind.textKind, nullable := false },
         { name := "email", kind := PrimKind.textKind, nullable := true }]
        (some "id") [] =
      ["id INTEGER PRIMARY KEY AUTOINCREMENT", "name TEXT", "email TEXT"]
    ∧ String.intercalate ", "
        (columnDefs
          [{ name := "name", kind := PrimKind.textKind, nullable := false },
           { name := "email", kind := PrimKind.textKind, nullable := true }]
          (some "id") []) =
      "id INTEGER PRIMARY KEY AUTOINCREMENT, name TEXT, email TEXT" := by
  exact ⟨rfl, rfl⟩

/-- C7: a driver-level error during execution is caught at the execute
boundary and never propagates: `execute_query` returns a tuple whose success
flag is `False`, `fetch_all` returns the empty list, and `fetch_one` returns
`None`. -/
theorem c7_driver_errors_degrade
    (ed : String → Option (List Value) → ExecOutcome)
    (fd : String → Option (List Value) → FetchOutcome)
    (od : String → Option (List Value) → FetchOneOutcome)
    (q : String) (ps : Option (List Value)) (e : String) (c : Cursor)
    (he : ed q (effParams ps) = ExecOutcome.failure e c)
    (hf : fd q (effParams ps) = FetchOutcome.failure e)
    (ho : od q (effParams ps) = FetchOneOutcome.failure e) :
    execute_query ed q ps = (false, c.rowcount, c.lastrowid)
    ∧ (execute_query ed q ps).1 = false
    ∧ fetch_all fd q ps = []
    ∧ fetch_one od q ps = none := by
  unfold execute_query fetch_all fetch_one
  rw [he, hf, ho]
  exact ⟨rfl, rfl, rfl, rfl⟩

/-- Witness for C7 at a concrete query with concrete failing drivers. -/
theorem c7_witness :
    ((fun _ _ => ExecOutcome.failure "disk error" { rowcount := -1, lastrowid := none })
        "SELECT 1" (effParams none) =
      ExecOutcome.failure "disk error" { rowcount := -1, lastrowid := none })
    ∧ (execute_query
          (fun _ _ => ExecOutcome.failure "disk error" { rowcount := -1, lastrowid := none })
          "SELECT 1" none = (false, -1, none)
        ∧ (execute_query
            (fun _ _ => ExecOutcome.failure "disk error" { rowcount := -1, lastrowid := none })
            "SELECT 1" none).1 = false
        ∧ fetch_all (fun _ _ => FetchOutcome.failure "disk error") "SELECT 1" none = []
        ∧ fetch_one (fun _ _ => FetchOneOutcome.failure "disk error") "SELECT 1" none = none) :=
  ⟨rfl, c7_driver_errors_degrade _ _ _ "SELECT 1" none "disk error"
    { rowcount := -1, lastrowid := none } rfl rfl rfl⟩

/-- C10: `filter()` with zero criteria returns exactly what `all()` returns —
both delegate to the same SELECT with no WHERE clause and no LIMIT — and an
empty criteria mapping silently means every row of the table. -/
theorem c10_filter_empty_eq_all (m : ModelType) (table : List Row) :
    filterRun m table [] = allRun m table
    ∧ (allRun m table).map QueryOut.sql =
        Except.ok ("SELECT " ++ String.intercalate ", " (select_columns m)
          ++ " FROM " ++ m.table)
    ∧ (allRun m table).map QueryOut.results =
        Except.ok (table.map (build_model_instance_from_row m (select_columns m))) := by
  refine ⟨rfl, ?_, ?_⟩
  · simp [allRun, queryRun, selectSQL, whereSQL, limitSQL, Except.map]
  · have hall : rowMatches (select_columns m) [] = fun _ => true := funext fun _ => rfl
    simp [allRun, queryRun, runSelect, hall, Except.map]

/-- C8: schema registration is idempotent per (type, handle) pair — after a
successful `_ensure_registered` run, a further call with the same
`Meta.database` performs no registrar call and leaves the state unchanged,
while rebinding to a different handle resets the registered flag, so the
registrar runs again. -/
theorem c8_registration_idempotent (metaDb : Option Nat) (s s1 : RegState) (b : Bool)
    (h : ensure_registered metaDb s = Except.ok (s1, b)) :
    ensure_registered metaDb s1 = Except.ok (s1, false)
    ∧ (∀ d d2 : Nat, metaDb = some d → d2 ≠ d →
        (meta_database (some d2) s1).2.registered = false
        ∧ ensure_registered (some d2) s1 =
            Except.ok ({ db := some d2, registered := true }, true)) := by
  have hstate : s1.registered = true ∧ (∀ d : Nat, metaDb = some d → s1.db = some d)
      ∧ (metaDb = none → s1.db = s.db) := by
    cases metaDb with
    | some d =>
      by_cases hdb : s.db = some d
      · by_cases hreg : s.registered = true
        · simp [ensure_registered, meta_database, hdb, hreg] at h
          obtain ⟨h1, -⟩ := h
          subst h1
          exact ⟨hreg, fun d2 hd2 => by cases hd2; exact hdb, fun hn => nomatch hn⟩
        · simp [ensure_registered, meta_database, hdb, hreg] at h
          obtain ⟨h1, -⟩ := h
          subst h1
          exact ⟨rfl, fun d2 hd2 => by cases hd2; rfl, fun hn => nomatch hn⟩
      · simp [ensure_registered, meta_database, hdb] at h
        obtain ⟨h1, -⟩ := h
        subst h1
        exact ⟨rfl, fun d2 hd2 => by cases hd2; rfl, fun hn => nomatch hn⟩
    | none =>
      cases hs : s.db with
      | none => simp [ensure_registered, meta_database, hs] at h
      | some d =>
        by_cases hreg : s.registered = true
        · simp [ensure_registered, meta_database, hs, hreg] at h
          obtain ⟨h1, -⟩ := h
          subst h1
          refine ⟨hreg, ?_, ?_⟩
          · intro d2 hd2
            cases hd2
          · intro _
            exact hs
        · simp [ensure_registered, meta_database, hs, hreg] at h
          obtain ⟨h1, -⟩ := h
          subst h1
          refine ⟨rfl, ?_, ?_⟩
          · intro d2 hd2
            cases hd2
          · intro _
            rfl
  obtain ⟨hreg1, hdb1, hdbn⟩ := hstate
  constructor
  · cases metaDb with
    | some d =>
      have hd : s1.db = some d := hdb1 d rfl
      simp [ensure_registered, meta_database, hd, hreg1]
    | none =>
      cases hs : s.db with
      | none => simp [ensure_registered, meta_database, hs] at h
      | some d =>
        have hd : s1.db = some d := by rw [hdbn rfl]; exact hs
        simp [ensure_registered, meta_database, hd, hreg1]
  · intro d d2 hmeta hne
    have hd : s1.db = some d := hdb1 d hmeta
    have hne2 : s1.db ≠ some d2 := by
      rw [hd]
      intro e
      exact hne (Option.some_inj.mp e).symm
    constructor
    · simp [meta_database, hne2]
    · simp [ensure_registered, meta_database, hne2]

/-- Witness for C8: a concrete first registration, its idempotent second
call, and a rebinding to a different handle that re-registers. -/
theorem c8_witness :
    (ensure_registered (some 1) { db := none, registered := false } =
        Except.ok ({ db := some 1, registered := true }, true))
    ∧ (ensure_registered (some 1) { db := some 1, registered := true } =
          Except.ok ({ db := some 1, registered := true }, false)
        ∧ (∀ d d2 : Nat, (some 1 : Option Nat) = some d → d2 ≠ d →
            (meta_database (some d2) { db := some 1, registered := true }).2.registered = false
            ∧ ensure_registered (some d2) { db := some 1, registered := true } =
                Except.ok ({ db := some d2, registered := true }, true))) :=
  ⟨rfl, c8_registration_idempotent (some 1) { db := none, registered := false }
    { db := some 1, registered := true } true rfl⟩

/-- C6: a `filter()` or `get()` call with a criterion key that is neither a
declared field nor the primary key raises `ValueError` before any SQL
executes — the outcome is the same error for every database state. -/
theorem c6_unknown_filter_rejected (m : ModelType) (table : List Row)
    (filters : List (String × Value)) (lim : Option Nat) (flag : Bool) (k : String)
    (hk : k ∈ filters.map Prod.fst) (hbad : isValidFilterField m k = false) :
    filterRun m table filters =
      Except.error ("Unknown filter field(s): " ++ String.intercalate ", "
        ((filters.map Prod.fst).filter fun n => ! isValidFilterField m n))
    ∧ get m table flag filters =
      Except.error (GetErr.valueErr ("Unknown filter field(s): " ++ String.intercalate ", "
        ((filters.map Prod.fst).filter fun n => ! isValidFilterField m n)))
    ∧ queryRun m table filters lim = queryRun m [] filters lim := by
  have hmem : k ∈ (filters.map Prod.fst).filter fun n => ! isValidFilterField m n :=
    List.mem_filter.mpr ⟨hk, by simp [hbad]⟩
  have hne : ((filters.map Prod.fst).filter fun n => ! isValidFilterField m n) ≠ [] :=
    List.ne_nil_of_mem hmem
  have hfne : filters ≠ [] := by
    intro e
    rw [e] at hk
    cases hk
  have hq : ∀ t : List Row, ∀ l : Option Nat, queryRun m t filters l =
      Except.error ("Unknown filter field(s): " ++ String.intercalate ", "
        ((filters.map Prod.fst).filter fun n => ! isValidFilterField m n)) := by
    intro t l
    simp only [queryRun]
    rw [if_pos hne]
  refine ⟨hq table none, ?_, by rw [hq table lim, hq [] lim]⟩
  simp only [get, if_neg hfne, hq table (some 2)]

/-- C2: with at least one criterion, all of them valid, `get` is determined
by the number of matching rows — zero matches returns `None` (or raises
`DoesNotExist` when `raise_if_not_found` is true), one match returns the
hydrated instance, two or more matches raise `MultipleObjectsReturned`
(through the 2-row LIMIT cap, so any count of at least 2 is reported
identically), and zero criteria is a `ValueError`. -/
theorem c2_get_cardinality (m : ModelType) (table : List Row) (flag : Bool)
    (filters : List (String × Value)) (hne : filters ≠ [])
    (hvalid : ∀ nv ∈ filters, isValidFilterField m nv.1 = true) :
    (table.filter (rowMatches (select_columns m) filters) = [] →
      get m table flag filters =
        if flag then
          Except.error (GetErr.doesNotExist (m.clsName ++ " matching query does not exist."))
        else Except.ok none)
    ∧ (∀ r, table.filter (rowMatches (select_columns m) filters) = [r] →
      get m table flag filters =
        Except.ok (some (build_model_instance_from_row m (select_columns m) r)))
    ∧ (2 ≤ (table.filter (rowMatches (select_columns m) filters)).length →
      get m table flag filters =
        Except.error (GetErr.multipleObjectsReturned
          ("get() returned more than one " ++ m.clsName ++ ".")))
    ∧ get m table flag [] =
        Except.error (GetErr.valueErr "get() requires at least one keyword filter.") := by
  have hunk : ((filters.map Prod.fst).filter fun n => ! isValidFilterField m n) = [] := by
    rw [List.filter_eq_nil_iff]
    intro a ha
    obtain ⟨nv, hnv, rfl⟩ := List.mem_map.mp ha
    simp [hvalid nv hnv]
  have hq : queryRun m table filters (some 2) = Except.ok
      { sql := selectSQL m filters (some 2)
        params := filters.map Prod.snd
        results := ((table.filter (rowMatches (select_columns m) filters)).take 2).map
          (build_model_instance_from_row m (select_columns m)) } := by
    simp only [queryRun, hunk, runSelect]
    rw [if_neg (by simp)]
  refine ⟨?_, ?_, ?_, by simp [get]⟩
  · intro hempty
    simp only [get, if_neg hne, hq, hempty, List.take_nil, List.map_nil]
  · intro r hr
    simp only [get, if_neg hne, hq, hr]
    rfl
  · intro hlen
    cases hm : table.filter (rowMatches (select_columns m) filters) with
    | nil => rw [hm] at hlen; cases hlen
    | cons r1 t1 =>
      cases t1 with
      | nil => rw [hm] at hlen; simp at hlen
      | cons r2 t2 => simp only [get, if_neg hne, hq, hm]; rfl

/-- Witness for C2: a two-row table in which both rows match the criterion,
so `get` raises the multiple-results error. -/
theorem c2_witness :
    (([(("name", Value.text "Alice") : String × Value)] ≠ [])
      ∧ (∀ nv ∈ [(("name", Value.text "Alice") : String × Value)],
          isValidFilterField userModel nv.1 = true))
    ∧ ((2 ≤ (twoAliceTable.filter
          (rowMatches (select_columns userModel) [("name", Value.text "Alice")])).length →
        get userModel twoAliceTable false [("name", Value.text "Alice")] =
          Except.error (GetErr.multipleObjectsReturned "get() returned more than one User."))
      ∧ get userModel twoAliceTable false [] =
          Except.error (GetErr.valueErr "get() requires at least one keyword filter.")) :=
  ⟨⟨by decide, by decide⟩,
    ⟨(c2_get_cardinality userModel twoAliceTable false [("name", Value.text "Alice")]
        (by decide) (by decide)).2.2.1,
      (c2_get_cardinality userModel twoAliceTable false [("name", Value.text "Alice")]
        (by decide) (by decide)).2.2.2⟩⟩

/-- Witness for C6: filtering on a key that is neither a declared field nor
the primary key is rejected regardless of the database contents. -/
theorem c6_witness :
    (("age" : String) ∈ ([("age", Value.int 3)].map
        (Prod.fst : String × Value → String))
      ∧ isValidFilterField userModel "age" = false)
    ∧ (filterRun userModel twoAliceTable [("age", Value.int 3)] =
        Except.error "Unknown filter field(s): age"
      ∧ get userModel twoAliceTable false [("age", Value.int 3)] =
        Except.error (GetErr.valueErr "Unknown filter field(s): age")
      ∧ queryRun userModel twoAliceTable [("age", Value.int 3)] none =
        queryRun userModel [] [("age", Value.int 3)] none) :=
  ⟨⟨by decide, by decide⟩,
    c6_unknown_filter_rejected userModel twoAliceTable [("age", Value.int 3)] none false
      "age" (by decide) (by decide)⟩

/-- C3: with a null primary-key value and no unique constraint, `save()`
emits a plain INSERT whose column list excludes the primary-key column; on
a successful insert the key field is set to the driver-reported
last-inserted id, and on a failed insert nothing is raised and the instance
is returned unchanged, its key still unset. -/
theorem c3_plain_insert (m : ModelType) (inst : RecordInstance)
    (uf : Option (List String)) (d : ExecResult) (p : String)
    (hpk : m.pk = some p) (hp : p ≠ "") (hnull : inst p = Value.null)
    (huniq : m.unique = []) :
    (save m inst uf d).sql =
      "INSERT INTO " ++ m.table ++ " ("
        ++ String.intercalate ", " (plainColumns (as_db_dict m inst) m.pk)
        ++ ") VALUES ("
        ++ String.intercalate ", "
            ((plainColumns (as_db_dict m inst) m.pk).map fun _ => "?")
        ++ ")"
    ∧ (save m inst uf d).params =
        (plainColumns (as_db_dict m inst) m.pk).map (dataGet (as_db_dict m inst))
    ∧ p ∉ plainColumns (as_db_dict m inst) m.pk
    ∧ (d.ok = true → (save m inst uf d).inst p = lastIdValue d.lastrowid)
    ∧ (d.ok = false → (save m inst uf d).inst = inst) := by
  have hbranch : save m inst uf d = savePlain m (as_db_dict m inst) inst d := by
    unfold save
    simp only [hpk, getNotNone_pk m inst p hpk hp, hnull, huniq]
    simp
  have hnotmem : p ∉ plainColumns (as_db_dict m inst) m.pk := by
    intro hmem
    obtain ⟨-, hdec⟩ := List.mem_filter.mp hmem
    rw [hpk] at hdec
    simp at hdec
  refine ⟨by rw [hbranch]; rfl, by rw [hbranch]; rfl, hnotmem, ?_, ?_⟩
  · intro hok
    rw [hbranch]
    simp only [savePlain, hpk]
    rw [if_pos ⟨hok, hp⟩]
    simp [setAttr]
  · intro hfail
    rw [hbranch]
    simp only [savePlain, hpk]
    rw [if_neg]
    intro hc
    rw [hfail] at hc
    cases hc.1

/-- Witness for C3 at the example `User` model: a fresh Alice record, a
successful insert setting `id` to the reported row id, and a failed insert
leaving the record untouched. -/
theorem c3_witness :
    (userModel.pk = some "id" ∧ ("id" : String) ≠ "" ∧ aliceNew "id" = Value.null
      ∧ userModel.unique = [])
    ∧ ((save userModel aliceNew none okExec).sql =
        "INSERT INTO user (name, email) VALUES (?, ?)"
      ∧ (save userModel aliceNew none okExec).inst "id" = Value.int 5
      ∧ (save userModel aliceNew none failExec).inst "id" = Value.null) := by
  have hok := c3_plain_insert userModel aliceNew none okExec "id" rfl (by decide)
    (by decide) rfl
  have hfail := c3_plain_insert userModel aliceNew none failExec "id" rfl (by decide)
    (by decide) rfl
  refine ⟨⟨rfl, by decide, by decide, rfl⟩, ?_, ?_, ?_⟩
  · rw [hok.1]
    decide
  · rw [hok.2.2.2.1 rfl]
    decide
  · rw [hfail.2.2.2.2 rfl]
    decide

/-- C4: with a null primary-key value and a non-empty unique constraint,
`save()` emits `INSERT INTO <table> (<all cols>) VALUES (...) ON CONFLICT
(<unique cols>) DO NOTHING` with the constrained columns in declared order;
the instance is never refreshed — it is returned unchanged for every driver
outcome, its key still unset. -/
theorem c4_conflict_insert (m : ModelType) (inst : RecordInstance)
    (uf : Option (List String)) (d : ExecResult) (p : String)
    (hpk : m.pk = some p) (hp : p ≠ "") (hnull : inst p = Value.null)
    (huniq : m.unique ≠ []) :
    (save m inst uf d).sql =
      "\n            INSERT INTO " ++ m.table ++ " ("
        ++ String.intercalate ", " ((as_db_dict m inst).map Prod.fst)
        ++ ")\n            VALUES ("
        ++ String.intercalate ", " (((as_db_dict m inst).map Prod.fst).map fun _ => "?")
        ++ ")\n            ON CONFLICT(" ++ String.intercalate ", " m.unique
        ++ ") DO NOTHING\n            "
    ∧ (save m inst uf d).params =
        ((as_db_dict m inst).map Prod.fst).map (dataGet (as_db_dict m inst))
    ∧ (save m inst uf d).inst = inst
    ∧ (save m inst uf d).inst p = Value.null := by
  have hbranch : save m inst uf d = saveConflict m (as_db_dict m inst) inst := by
    unfold save
    simp only [hpk, getNotNone_pk m inst p hpk hp, hnull]
    rw [if_neg (by simp), if_pos huniq]
  refine ⟨by rw [hbranch]; rfl, by rw [hbranch]; rfl, by rw [hbranch]; rfl, ?_⟩
  rw [hbranch]
  exact hnull

/-- Witness for C4 at the `User` model with a unique constraint on `name`:
the upsert SQL shape and the untouched instance. -/
theorem c4_witness :
    (userModelUnique.pk = some "id" ∧ ("id" : String) ≠ ""
      ∧ aliceNew "id" = Value.null ∧ userModelUnique.unique ≠ [])
    ∧ ((save userModelUnique aliceNew none okExec).sql =
        "\n            INSERT INTO user (name, email, id)\n            VALUES (?, ?, ?)"
          ++ "\n            ON CONFLICT(name) DO NOTHING\n            "
      ∧ (save userModelUnique aliceNew none okExec).inst = aliceNew
      ∧ (save userModelUnique aliceNew none okExec).inst "id" = Value.null) := by
  have h := c4_conflict_insert userModelUnique aliceNew none okExec "id" rfl (by decide)
    (by decide) (by decide)
  refine ⟨⟨rfl, by decide, by decide, by decide⟩, ?_, h.2.2.1, h.2.2.2⟩
  rw [h.1]
  decide

/-- C1 counterexample: for a saved record with `id = 1`, calling
`save(update_fields=[])` — where the claim mandates updating exactly the
given (empty) column list, hence SQL `UPDATE user SET  WHERE id=?` with
parameters `[1]` — instead updates all non-primary-key fields, because the
code's `update_fields or [...]` treats an empty list as not given. -/
theorem c1_counterexample :
    (save userModel aliceSaved (some []) okExec).sql ≠ "UPDATE user SET  WHERE id=?"
    ∧ (save userModel aliceSaved (some []) okExec).params ≠ [Value.int 1]
    ∧ (save userModel aliceSaved (some []) okExec).sql =
        "UPDATE user SET name=?, email=? WHERE id=?"
    ∧ (save userModel aliceSaved (some []) okExec).params =
        [Value.text "Alice", Value.text "alice@example.com", Value.int 1] := by
  refine ⟨by decide, by decide, by decide, by decide⟩

/-- C1 (amended): for every record instance whose primary-key field holds a
non-null value — and whose `update_fields` names, when given, are all data
columns, since `params = tuple(data[c] for c in cols)` raises `KeyError` on
any other name before a statement is emitted — `save(instance,
update_fields)` emits an UPDATE statement (never an INSERT), where the
updated columns are `update_fields` if given and non-empty — an empty
`update_fields` list is falsy, so it falls back like `None` — and otherwise
all declared non-primary-key fields; the bound parameters are positionally
the updated columns' values first followed by the primary-key value last
(every `data[c]` and `data[pk]` lookup succeeding, so no default value is
ever substituted), and the instance is returned unchanged. -/
theorem c1_update_by_key (m : ModelType) (inst : RecordInstance)
    (uf : Option (List String)) (d : ExecResult) (p : String)
    (hpk : m.pk = some p) (hp : p ≠ "") (hnn : inst p ≠ Value.null)
    (hufv : ∀ c ∈ updateColumns (as_db_dict m inst) uf p,
      c ∈ (as_db_dict m inst).map Prod.fst) :
    (save m inst uf d).sql =
      "UPDATE " ++ m.table ++ " SET "
        ++ String.intercalate ", "
            ((updateColumns (as_db_dict m inst) uf p).map fun c => c ++ "=?")
        ++ " WHERE " ++ p ++ "=?"
    ∧ (save m inst uf d).params =
        (updateColumns (as_db_dict m inst) uf p).map (dataGet (as_db_dict m inst))
          ++ [inst p]
    ∧ (save m inst uf d).inst = inst
    ∧ (∀ fs, uf = some fs → fs ≠ [] → updateColumns (as_db_dict m inst) uf p = fs)
    ∧ ((uf = none ∨ uf = some []) →
        updateColumns (as_db_dict m inst) uf p = m.fields.filter fun c => decide (c ≠ p))
    ∧ (∀ c ∈ updateColumns (as_db_dict m inst) uf p,
        (List.lookup c (as_db_dict m inst)).isSome = true)
    ∧ List.lookup p (as_db_dict m inst) = some (inst p) := by
  have hbranch : save m inst uf d = saveUpdate m (as_db_dict m inst) inst uf p := by
    unfold save
    simp only [hpk, getNotNone_pk m inst p hpk hp]
    rw [if_pos ⟨hp, by simp [hnn]⟩]
  have hdb : dbKeys m = if p ≠ "" ∧ p ∉ m.fields then m.fields ++ [p] else m.fields := by
    unfold dbKeys
    rw [hpk]
  have hfallback : ((as_db_dict m inst).map Prod.fst).filter (fun c => decide (c ≠ p))
      = m.fields.filter fun c => decide (c ≠ p) := by
    rw [as_db_dict_keys, hdb]
    by_cases hmem : p ∈ m.fields
    · rw [if_neg fun hcon => hcon.2 hmem]
    · rw [if_pos (show p ≠ "" ∧ p ∉ m.fields from ⟨hp, hmem⟩), List.filter_append]
      simp
  refine ⟨?_, ?_, by rw [hbranch]; rfl, ?_, ?_, ?_, ?_⟩
  · rw [hbranch]
    rfl
  · rw [hbranch]
    show (updateColumns (as_db_dict m inst) uf p).map (dataGet (as_db_dict m inst))
        ++ [dataGet (as_db_dict m inst) p] = _
    rw [dataGet_pk m inst p hpk hp]
  · intro fs hfs hne
    rw [hfs]
    show (if fs = [] then ((as_db_dict m inst).map Prod.fst).filter fun c => decide (c ≠ p)
      else fs) = fs
    rw [if_neg hne]
  · intro hcase
    cases hcase with
    | inl h =>
      rw [h]
      exact hfallback
    | inr h =>
      rw [h]
      show (if ([] : List String) = []
          then ((as_db_dict m inst).map Prod.fst).filter fun c => decide (c ≠ p)
          else []) = m.fields.filter fun c => decide (c ≠ p)
      rw [if_pos rfl]
      exact hfallback
  · intro c hc
    exact lookup_isSome_of_mem_keys (as_db_dict m inst) c (hufv c hc)
  · exact as_db_dict_lookup_pk m inst p hpk hp

theorem saveUpdate_sql (m : ModelType) (data : List (String × Value))
    (inst : RecordInstance) (uf : Option (List String)) (p : String) :
    (saveUpdate m data inst uf p).sql =
      "UPDATE " ++ m.table ++ " SET "
        ++ String.intercalate ", " ((updateColumns data uf p).map fun c => c ++ "=?")
        ++ " WHERE " ++ p ++ "=?" := rfl

theorem saveConflict_sql (m : ModelType) (data : List (String × Value))
    (inst : RecordInstance) :
    (saveConflict m data inst).sql =
      "\n            INSERT INTO " ++ m.table ++ " ("
        ++ String.intercalate ", " (data.map Prod.fst)
        ++ ")\n            VALUES ("
        ++ String.intercalate ", " ((data.map Prod.fst).map fun _ => "?")
        ++ ")\n            ON CONFLICT(" ++ String.intercalate ", " m.unique
        ++ ") DO NOTHING\n            " := rfl

theorem savePlain_sql (m : ModelType) (data : List (String × Value))
    (inst : RecordInstance) (d : ExecResult) :
    (savePlain m data inst d).sql =
      "INSERT INTO " ++ m.table ++ " ("
        ++ String.intercalate ", " (plainColumns data m.pk)
        ++ ") VALUES ("
        ++ String.intercalate ", " ((plainColumns data m.pk).map fun _ => "?")
        ++ ")" := rfl

theorem saveUpdate_sql_congr (m : ModelType) (d1 d2 : List (String × Value))
    (i1 i2 : RecordInstance) (uf : Option (List String)) (p : String)
    (hk : d1.map Prod.fst = d2.map Prod.fst) :
    (saveUpdate m d1 i1 uf p).sql = (saveUpdate m d2 i2 uf p).sql := by
  rw [saveUpdate_sql, saveUpdate_sql]
  unfold updateColumns
  rw [hk]

theorem saveConflict_sql_congr (m : ModelType) (d1 d2 : List (String × Value))
    (i1 i2 : RecordInstance) (hk : d1.map Prod.fst = d2.map Prod.fst) :
    (saveConflict m d1 i1).sql = (saveConflict m d2 i2).sql := by
  rw [saveConflict_sql, saveConflict_sql, hk]

theorem savePlain_sql_congr (m : ModelType) (d1 d2 : List (String × Value))
    (i1 i2 : RecordInstance) (e1 e2 : ExecResult)
    (hk : d1.map Prod.fst = d2.map Prod.fst) :
    (savePlain m d1 i1 e1).sql = (savePlain m d2 i2 e2).sql := by
  rw [savePlain_sql, savePlain_sql]
  unfold plainColumns
  rw [hk]

/-- Witness for C1 at the `User` model: updating the saved Alice record with
`update_fields=["name"]`, a name that is a data column. -/
theorem c1_witness :
    (userModel.pk = some "id" ∧ ("id" : String) ≠ "" ∧ aliceSaved "id" ≠ Value.null
      ∧ (∀ c ∈ updateColumns (as_db_dict userModel aliceSaved) (some ["name"]) "id",
          c ∈ (as_db_dict userModel aliceSaved).map Prod.fst))
    ∧ ((save userModel aliceSaved (some ["name"]) okExec).sql =
        "UPDATE user SET name=? WHERE id=?"
      ∧ (save userModel aliceSaved (some ["name"]) okExec).params =
        [Value.text "Alice", Value.int 1]
      ∧ updateColumns (as_db_dict userModel aliceSaved) (some ["name"]) "id" = ["name"]
      ∧ List.lookup "id" (as_db_dict userModel aliceSaved) = some (aliceSaved "id")) := by
  have h := c1_update_by_key userModel aliceSaved (some ["name"]) okExec "id" rfl
    (by decide) (by decide) (by decide)
  refine ⟨⟨rfl, by decide, by decide, by decide⟩, ?_, ?_,
    h.2.2.2.1 ["name"] rfl (by decide), h.2.2.2.2.2.2⟩
  · rw [h.1]
    decide
  · rw [h.2.1]
    decide

theorem whereSQL_congr (f1 f2 : List (String × Value))
    (hf : f1.map Prod.fst = f2.map Prod.fst) : whereSQL f1 = whereSQL f2 := by
  unfold whereSQL
  by_cases he : f1 = []
  · have he2 : f2 = [] := by
      rw [he] at hf
      exact List.map_eq_nil_iff.mp hf.symm
    rw [if_pos he, if_pos he2]
  · have he2 : f2 ≠ [] := by
      intro e
      rw [e] at hf
      exact he (List.map_eq_nil_iff.mp hf)
    rw [if_neg he, if_neg he2]
    have h1 : f1.map (fun nv => nv.1 ++ "=?") = (f1.map Prod.fst).map fun s => s ++ "=?" := by
      rw [List.map_map]
      rfl
    have h2 : f2.map (fun nv => nv.1 ++ "=?") = (f2.map Prod.fst).map fun s => s ++ "=?" := by
      rw [List.map_map]
      rfl
    rw [h1, h2, hf]

theorem selectSQL_congr (m : ModelType) (f1 f2 : List (String × Value)) (lim : Option Nat)
    (hf : f1.map Prod.fst = f2.map Prod.fst) : selectSQL m f1 lim = selectSQL m f2 lim := by
  unfold selectSQL
  rw [whereSQL_congr f1 f2 hf]

theorem queryRun_sql_congr (m : ModelType) (t1 t2 : List Row)
    (f1 f2 : List (String × Value)) (lim : Option Nat)
    (hf : f1.map Prod.fst = f2.map Prod.fst) :
    (queryRun m t1 f1 lim).map QueryOut.sql = (queryRun m t2 f2 lim).map QueryOut.sql := by
  simp only [queryRun, hf]
  by_cases hu : (f2.map Prod.fst).filter (fun n => ! isValidFilterField m n) = []
  · rw [if_neg fun hcon => hcon hu, if_neg fun hcon => hcon hu]
    simp only [Except.map]
    rw [selectSQL_congr m f1 f2 lim hf]
  · rw [if_pos hu, if_pos hu]

/-- C9 counterexample: two instances of the same type with the same
`update_fields` (none) but different field values — one with its primary key
set, one without — produce different SQL texts (an UPDATE versus an INSERT),
so the claim's value-independence of the SQL string fails as stated. -/
theorem c9_counterexample :
    (save userModel aliceSaved none okExec).sql ≠ (save userModel aliceNew none okExec).sql := by
  decide

/-- C9 (amended): the generated SQL text never embeds a data value — it is a
function of the type metadata, the `update_fields` argument and the filter
keys alone.  For `save`, two instances that agree on whether their
primary-key value is null (hence select the same SQL shape) yield
character-for-character identical SQL for every pair of field valuations and
driver results; for the read path, two criteria mappings with the same keys
yield identical SQL for every pair of database states. -/
theorem c9_sql_from_identifiers_only (m : ModelType) (i1 i2 : RecordInstance)
    (uf : Option (List String)) (d1 d2 : ExecResult)
    (hagree : ∀ p, m.pk = some p → ((i1 p = Value.null) ↔ (i2 p = Value.null))) :
    (save m i1 uf d1).sql = (save m i2 uf d2).sql
    ∧ ∀ (t1 t2 : List Row) (f1 f2 : List (String × Value)) (lim : Option Nat),
        f1.map Prod.fst = f2.map Prod.fst →
        (queryRun m t1 f1 lim).map QueryOut.sql = (queryRun m t2 f2 lim).map QueryOut.sql := by
  have hk : (as_db_dict m i1).map Prod.fst = (as_db_dict m i2).map Prod.fst := by
    rw [as_db_dict_keys, as_db_dict_keys]
  constructor
  · simp only [save]
    cases hpk : m.pk with
    | none =>
      by_cases hu : m.unique ≠ []
      · rw [if_pos hu, if_pos hu]
        exact saveConflict_sql_congr m _ _ i1 i2 hk
      · rw [if_neg hu, if_neg hu]
        exact savePlain_sql_congr m _ _ i1 i2 d1 d2 hk
    | some p =>
      dsimp only
      by_cases hp : p = ""
      · rw [if_neg (fun hc => hc.1 hp : ¬ (p ≠ "" ∧ getNotNone (as_db_dict m i1) p = true)),
          if_neg (fun hc => hc.1 hp : ¬ (p ≠ "" ∧ getNotNone (as_db_dict m i2) p = true))]
        by_cases hu : m.unique ≠ []
        · rw [if_pos hu, if_pos hu]
          exact saveConflict_sql_congr m _ _ i1 i2 hk
        · rw [if_neg hu, if_neg hu]
          exact savePlain_sql_congr m _ _ i1 i2 d1 d2 hk
      · have hnn : getNotNone (as_db_dict m i1) p = getNotNone (as_db_dict m i2) p := by
          rw [getNotNone_pk m i1 p hpk hp, getNotNone_pk m i2 p hpk hp]
          exact decide_eq_decide.mpr (not_congr (hagree p hpk))
        by_cases hc1 : p ≠ "" ∧ getNotNone (as_db_dict m i1) p = true
        · have hc2 : p ≠ "" ∧ getNotNone (as_db_dict m i2) p = true :=
            ⟨hc1.1, by rw [← hnn]; exact hc1.2⟩
          rw [if_pos hc1, if_pos hc2]
          exact saveUpdate_sql_congr m _ _ i1 i2 uf p hk
        · have hc2 : ¬ (p ≠ "" ∧ getNotNone (as_db_dict m i2) p = true) := by
            intro hc
            exact hc1 ⟨hc.1, by rw [hnn]; exact hc.2⟩
          rw [if_neg hc1, if_neg hc2]
          by_cases hu : m.unique ≠ []
          · rw [if_pos hu, if_pos hu]
            exact saveConflict_sql_congr m _ _ i1 i2 hk
          · rw [if_neg hu, if_neg hu]
            exact savePlain_sql_congr m _ _ i1 i2 d1 d2 hk
  · intro t1 t2 f1 f2 lim hf
    exact queryRun_sql_congr m t1 t2 f1 f2 lim hf

/-- Witness for C9: Alice and Bob, both already saved, produce the same
UPDATE text; filtering on `name` with different values produces the same
SELECT text on different tables. -/
theorem c9_witness :
    (∀ p, userModel.pk = some p → ((aliceSaved p = Value.null) ↔ (bobSaved p = Value.null)))
    ∧ ((save userModel aliceSaved none okExec).sql = (save userModel bobSaved none failExec).sql
      ∧ ∀ (t1 t2 : List Row) (f1 f2 : List (String × Value)) (lim : Option Nat),
          f1.map Prod.fst = f2.map Prod.fst →
          (queryRun userModel t1 f1 lim).map QueryOut.sql =
            (queryRun userModel t2 f2 lim).map QueryOut.sql) := by
  have hagree : ∀ p, userModel.pk = some p →
      ((aliceSaved p = Value.null) ↔ (bobSaved p = Value.null)) := by
    intro p hp
    have h2 : some "id" = some p := hp
    injection h2 with h
    subst h
    decide
  exact ⟨hagree, c9_sql_from_identifiers_only userModel aliceSaved bobSaved none okExec
    failExec hagree⟩
